import Mathlib

/-!
Shallow embedding of the structure-sampling and selection subsystem of the
`automl-autoplex` repository, together with theorems that settle the frozen
claims about it.

The embedded source files are
  * `src/autoplex/data/common/utils.py` (geometry perturbation, CUR
    selection, Boltzmann flat-histogram sampling), and
  * `src/autoplex/data/phonons/utils.py` (`reduce_supercell_size`).

Modelling conventions used throughout:
  * Python floats are modelled by exact rationals (`ℚ`); the one place where
    an irrational value appears (the cube root in `scale_cell`) uses `ℝ`.
  * `ase.Atoms` objects are modelled by the `Config` structure below.  The
    `info` dictionary of an `Atoms` object is modelled as an association
    list from string keys to rationals; a missing key is a `KeyError`.
    Python object identity is modelled by an explicit `id` field.
  * Fallible code returns `Except String`, the string naming the Python
    exception or message raised at that point.
  * External numeric black boxes (the quippy descriptor, `scipy.svds`,
    `np.exp`, `np.random`) are passed in as explicit oracle parameters; the
    theorems hold for every oracle, and the properties of `np.random.choice`
    with `replace=False` (distinct in-range indices) are validated inside
    the model exactly where NumPy itself would raise.
-/

/-- A per-call oracle for the stream of `np.random.uniform()` draws is just a
list of rationals consumed one per selection round. -/
abbrev RandStream := List ℚ

/-- Model of one `ase.Atoms` configuration as used by the sampling code in
`src/autoplex/data/common/utils.py`.  `species` is `get_atomic_numbers()`
(so `species.length` is `len(atom)`), `info` is the `atom.info` dictionary
restricted to scalar entries, `volume` is `get_volume()`, and `id` models
Python object identity (two distinct pool entries have distinct ids). -/
structure Config where
  id : ℕ
  species : List ℕ
  info : List (String × ℚ)
  volume : ℚ
deriving DecidableEq, Repr

/-- Error-propagating map over a list, matching a Python list comprehension
in which the element expression may raise: the first raise aborts the whole
comprehension with that error. -/
def mapME (f : α → Except String β) : List α → Except String (List β)
  | [] => .ok []
  | x :: xs =>
    match f x with
    | .error e => .error e
    | .ok y =>
      match mapME f xs with
      | .error e => .error e
      | .ok ys => .ok (y :: ys)

/-- Python 3 `round` to an integer: round half to even (banker's rounding). -/
def pyRound (q : ℚ) : ℤ :=
  if q - ⌊q⌋ < 1 / 2 then ⌊q⌋
  else if q - ⌊q⌋ > 1 / 2 then ⌊q⌋ + 1
  else if ⌊q⌋ % 2 = 0 then ⌊q⌋ else ⌊q⌋ + 1

/-- Python `int()` on a float: truncation toward zero. -/
def pyInt (q : ℚ) : ℤ :=
  if 0 ≤ q then ⌊q⌋ else ⌈q⌉

/-- `np.cumsum` on a rational vector. -/
def cumsumFrom (acc : ℚ) : List ℚ → List ℚ
  | [] => []
  | x :: xs => (acc + x) :: cumsumFrom (acc + x) xs

/-- `np.cumsum` starting from zero. -/
def cumsum (l : List ℚ) : List ℚ := cumsumFrom 0 l

/-- `np.min` over a list; the empty case (on which NumPy raises) is never
reached by the embedded pipelines, which guard non-emptiness earlier. -/
def qmin : List ℚ → ℚ
  | [] => 0
  | x :: xs => xs.foldl min x

/-- `np.max` over a list, same convention as `qmin`. -/
def qmax : List ℚ → ℚ
  | [] => 0
  | x :: xs => xs.foldl max x

/-- `ase.units.GPa` expressed in eV per cubic angstrom, as an exact
rational: 1 GPa = 10^7 / 1602176634 eV per cubic angstrom. -/
def GPaConst : ℚ := (10 ^ 7 : ℚ) / 1602176634

/-- Lookup in an `atom.info` dictionary (keys are unique, so the first
match is the entry). -/
def lookupQ (key : String) : List (String × ℚ) → Option ℚ
  | [] => none
  | (k, v) :: rest => if k = key then some v else lookupQ key rest

/-- The `atoms` argument of `boltzhist_CUR` / `convexhull_CUR` / `cur_select`
is either a flat list of configurations or a list of lists ("If this is a
list of lists, it is flattened", `utils.py:1052`).  The two shapes are
distinguished in the source by `isinstance(atoms[0], list)`. -/
inductive CurInput where
  | flat (pool : List Config)
  | nested (pools : List (List Config))
deriving DecidableEq, Repr

/-- The configurations an input holds, in order (for `nested`, the result of
`flatten(atoms, recursive=True)`, `utils.py:33`). -/
def CurInput.configs : CurInput → List Config
  | .flat pool => pool
  | .nested pools => pools.flatten

/-- Entry of `cur_select` and `boltzhist_CUR` (`utils.py:962` and
`utils.py:1077`): `isinstance(atoms[0], list)` indexes the first element, so
an empty input raises `IndexError` before anything else; otherwise `fatoms`
is the flattened pool for nested input and the input list itself (aliased,
not copied) for flat input. -/
def curFatoms : CurInput → Except String (List Config)
  | .flat [] => .error "IndexError"
  | .flat (c :: cs) => .ok (c :: cs)
  | .nested [] => .error "IndexError"
  | .nested (p :: ps) => .ok ((p :: ps).flatten)

/-- `utils.py:1083`-`1093`: if `P is None` the pressures are read from each
configuration's `info` dictionary; any missing key raises, and the bare
`except` re-raises `RuntimeError` with the fixed message (source text: `No
pressures, so can` + apostrophe + `t Boltzmann weight`; the apostrophe is
dropped here). -/
def getPressures (P : Option (List ℚ)) (fatoms : List Config) : Except String (List ℚ) :=
  match P with
  | some l => .ok l
  | none =>
    mapME
      (fun c =>
        match lookupQ "pressure" c.info with
        | some p => .ok p
        | none => .error "No pressures, so cannot Boltzmann weight")
      fatoms

/-- `utils.py:1097`-`1100`: per-configuration relative energy
`(atom.info['energy'] - sum(isol_es[j] for j in atomic_numbers)) / len(atom)`.
The energy is read under the fixed key `'energy'` (the `energy_label`
parameter is not consulted); a missing key is a `KeyError`, and an empty
configuration is a `ZeroDivisionError`.  `isol_es` is modelled as a total
map from atomic number to isolated-atom energy. -/
def enerRelative (isol_es : ℕ → ℚ) (c : Config) : Except String ℚ :=
  match lookupQ "energy" c.info with
  | none => .error "KeyError: energy"
  | some e =>
    if c.species.length = 0 then .error "ZeroDivisionError"
    else .ok ((e - (c.species.map isol_es).sum) / c.species.length)

/-- `utils.py:1095`-`1105`: the enthalpy proxy actually computed by the code,
`(ener_relative[i] + at.get_volume() * ps[i] * GPa) / len(at)` — note that
`ener_relative` is already divided by `len(atom)` once, so the energy part
ends up divided by the atom count twice.  `ps[i]` past the end of the
pressure list is an `IndexError`. -/
def computeEnthalpies (isol_es : ℕ → ℚ) (fatoms : List Config) (ps : List ℚ) :
    Except String (List ℚ) :=
  match mapME (enerRelative isol_es) fatoms with
  | .error e => .error e
  | .ok ener_relative =>
    mapME
      (fun i =>
        match fatoms.get? i, ener_relative.get? i, ps.get? i with
        | some c, some er, some p => .ok ((er + c.volume * p * GPaConst) / c.species.length)
        | _, _, _ => .error "IndexError")
      (List.range fatoms.length)

/-- Modelled from the spec: the per-configuration enthalpy proxy as the spec
states it, `(E_config - sum of isolated_atom_energies) / n_atoms +
V_config * P_config / n_atoms`.  Used only for comparison with
`computeEnthalpies`. -/
def enthalpySpec (isol_es : ℕ → ℚ) (E : ℚ) (c : Config) (p : ℚ) : ℚ :=
  (E - (c.species.map isol_es).sum) / c.species.length + c.volume * p / c.species.length

/-- Edge `i` of the `np.histogram` bin grid over `[lo, hi]` with the default
10 bins: `lo + (hi - lo) * i / 10`. -/
def histEdge (lo hi : ℚ) (i : ℕ) : ℚ := lo + (hi - lo) * i / 10

/-- Occupancy of bin `j` of `np.histogram(vals)` (10 equal bins between the
minimum and the maximum, all bins half-open except the last, which also
contains the right edge). -/
def histCount (lo hi : ℚ) (vals : List ℚ) (j : ℕ) : ℕ :=
  vals.countP fun v =>
    decide (histEdge lo hi j ≤ v ∧ (v < histEdge lo hi (j + 1) ∨ (j = 9 ∧ v ≤ histEdge lo hi 10)))

/-- `utils.py:1110`-`1112`: `np.searchsorted(histo[1][1:], H, side='right')`
(the number of interior-or-right edges `≤ H`), clamped into the last bin
when it lands past it. -/
def histBinIndex (lo hi : ℚ) (H : ℚ) : ℕ :=
  let raw := (List.range 10).countP fun i => decide (histEdge lo hi (i + 1) ≤ H)
  if raw = 10 then 9 else raw

/-- The `(lo, hi)` base of the `np.histogram` grid: the data minimum and
maximum, widened by 1/2 on both sides when all values coincide. -/
def histRange (vals : List ℚ) : ℚ × ℚ :=
  let mn := qmin vals
  let mx := qmax vals
  if mn = mx then (mn - 1 / 2, mx + 1 / 2) else (mn, mx)

/-- `utils.py:1107`-`1119`: the raw selection weight of one enthalpy value:
the reciprocal occupancy of its histogram bin (zero for an empty bin), times
the Boltzmann factor `exp(-(H - min_H)/kT)` when `kT > 0`.  `expFn` is the
oracle standing for the external floating-point `np.exp`. -/
def configProb (expFn : ℚ → ℚ) (kT minH lo hi : ℚ) (vals : List ℚ) (H : ℚ) : ℚ :=
  let occ := histCount lo hi vals (histBinIndex lo hi H)
  let p := if 0 < occ then 1 / (occ : ℚ) else 0
  if 0 < kT then p * expFn (-(H - minH) / kT) else p

/-- `utils.py:1128`-`1140`: the selection loop.  Each round normalizes the
remaining weights, draws the index of the first cumulative weight at or
above the uniform draw (`np.searchsorted` on the cumulative sums), appends
that configuration to the output, and deletes the configuration and its
weight before the next round.  Returns the selected configurations together
with the remaining pool (the working list after the in-place deletions).
An out-of-range draw is the `IndexError` the source would raise at
`fatoms[config_i]`. -/
def boltzLoop : ℕ → List Config → List ℚ → RandStream →
    Except String (List Config × List Config)
  | 0, pool, _, _ => .ok ([], pool)
  | _ + 1, _, _, [] => .error "rng oracle exhausted"
  | k + 1, pool, probs, rv :: rvs =>
    let s := probs.sum
    let cum := cumsum (probs.map fun p => p / s)
    let i := cum.countP fun x => decide (x < rv)
    match pool.get? i with
    | none => .error "IndexError"
    | some c =>
      match boltzLoop k (pool.eraseIdx i) (probs.eraseIdx i) rvs with
      | .error e => .error e
      | .ok (sel, rem) => .ok (c :: sel, rem)

/-- Oracle bundle for the external randomness and numerics used by
`cur_select`: `choiceIdxs n k` is the index set drawn by
`np.random.choice(range(n), size=k, replace=False, p=c_scores)`
(`utils.py:996`).  The descriptor vectors and the truncated SVD only feed
the probability vector `p` of that draw, so they are absorbed into the
oracle; the guarantees NumPy enforces on the draw itself (exactly `k`
distinct indices below `n`, raising otherwise) are checked in the model. -/
structure CurOracle where
  choiceIdxs : ℕ → ℕ → List ℕ

/-- `sorted(...)` on a list of indices (`utils.py:996`). -/
def sortNat (l : List ℕ) : List ℕ := l.mergeSort (fun a b => decide (a ≤ b))

/-- `cur_select` (`utils.py:936`-`1006`), as invoked by the samplers
(`stochastic=True`).  After computing descriptors (black box), the guard
`isinstance(ats, list) & (len(ats) != 0)` skips the decomposition and
selection entirely when the flattened pool is empty, making the function
return `None` (modelled as `.ok none`); otherwise the stochastic CUR draw
selects `select_nums` distinct indices, which are sorted and used to index
the pool. -/
def cur_select (oracle : CurOracle) (select_nums : ℕ) (inp : CurInput) :
    Except String (Option (List Config)) :=
  match curFatoms inp with
  | .error e => .error e
  | .ok fatoms =>
    if fatoms.length ≠ 0 then
      let idxs := oracle.choiceIdxs fatoms.length select_nums
      if idxs.length = select_nums ∧ idxs.Nodup ∧ ∀ i ∈ idxs, i < fatoms.length then
        .ok (some ((sortNat idxs).filterMap fun i => fatoms[i]?))
      else .error "np.random.choice: invalid draw"
    else .ok none

/-- The caller's `atoms` argument as observable after a sampler call: for
flat input `fatoms` aliases the caller's list (`fatoms = atoms`,
`utils.py:1081`) and the in-loop `del fatoms[config_i]` deletions leave the
caller holding only the remainder of the pool; for nested input `flatten`
builds a fresh list and the caller's pools are untouched. -/
def callerAfter : CurInput → List Config → CurInput
  | .flat _, rem => .flat rem
  | .nested pools, _ => .nested pools

/-- `utils.py:1121`-`1126`: the Boltzmann target count,
`min(round(bolt_frac * len(fatoms)), bolt_max_num)`; a negative rounded
value makes `range(select_num)` empty, hence the `toNat`. -/
def boltzSelectNum (bolt_frac : ℚ) (poolLen : ℕ) (bolt_max_num : ℕ) : ℕ :=
  (min (pyRound (bolt_frac * poolLen)) (bolt_max_num : ℤ)).toNat

/-- `boltzhist_CUR` (`utils.py:1034`-`1152`).  Returns the selected
configurations together with the state of the caller's `atoms` argument
after the call: for flat input `fatoms` aliases the caller's list
(`fatoms = atoms`, `utils.py:1081`) and the in-loop `del fatoms[config_i]`
deletions are visible to the caller, while for nested input `flatten`
builds a fresh list and the caller's pools are untouched.  `expFn` models
`np.exp`, `rvs` the `np.random.uniform()` stream, `oracle` the CUR draw.
The `energy_label` parameter is accepted and, as in the source, never
used. -/
def boltzhist_CUR (expFn : ℚ → ℚ) (rvs : RandStream) (oracle : CurOracle)
    (inp : CurInput) (isol_es : ℕ → ℚ) (bolt_frac : ℚ) (bolt_max_num : ℕ)
    (cur_num : ℕ) (kT : ℚ) (energy_label : String) (P : Option (List ℚ)) :
    Except String (List Config × CurInput) :=
  match curFatoms inp with
  | .error e => .error e
  | .ok fatoms =>
    match getPressures P fatoms with
    | .error e => .error e
    | .ok ps =>
      match computeEnthalpies isol_es fatoms ps with
      | .error e => .error e
      | .ok enthalpies =>
        let minH := qmin enthalpies
        let lohi := histRange enthalpies
        let probs := enthalpies.map (configProb expFn kT minH lohi.1 lohi.2 enthalpies)
        let select_num := boltzSelectNum bolt_frac fatoms.length bolt_max_num
        match boltzLoop select_num fatoms probs rvs with
        | .error e => .error e
        | .ok (selected_bolt_ats, rem) =>
          if cur_num < select_num then
            match cur_select oracle cur_num (.flat selected_bolt_ats) with
            | .error e => .error e
            | .ok (some selected_atoms) => .ok (selected_atoms, callerAfter inp rem)
            | .ok none => .error "unreachable: cur_select returned None on a non-empty pool"
          else .ok (selected_bolt_ats, callerAfter inp rem)

/-- Model of a pymatgen `Structure` as `scale_cell` uses it: a lattice
matrix over `ℝ` and fractional atomic positions.  `set_cell(f * cell,
scale_atoms=True)` multiplies the lattice by `f` and keeps the fractional
positions fixed. -/
structure PStructure where
  lattice : Fin 3 → Fin 3 → ℝ
  species : List ℕ
  fracPos : List (Fin 3 → ℝ)

/-- The fixed default factor set of `scale_cell` (`utils.py:176`). -/
def defaultScaleFactors : List ℚ :=
  [90 / 100, 95 / 100, 98 / 100, 99 / 100, 101 / 100, 102 / 100, 105 / 100, 110 / 100]

/-- `np.arange start stop step`: the values `start + i * step` for
`i < ⌈(stop - start) / step⌉`. -/
def npArange (start stop step : ℚ) : List ℚ :=
  (List.range (⌈(stop - start) / step⌉).toNat).map fun i => start + step * i

/-- `np.sort` on a rational vector. -/
def sortQ (l : List ℚ) : List ℚ := l.mergeSort (fun a b => decide (a ≤ b))

/-- `utils.py:153`-`183`: the scale factors `scale_cell` iterates over.  A
given range is discretised by `np.arange` with the endpoint-inclusive step
`(hi - lo) / (n_structures - 1)` and the neutral factor 1 is inserted (and
the list re-sorted) if absent; otherwise the custom factors, or the default
set, are used as given.  (`n_structures = 1` makes the Python step a float
division by zero; no claim touches that case and `ℚ` maps it to step 0.) -/
def scaleFactorsDefined (range? : Option (ℚ × ℚ)) (n_structures : ℕ)
    (custom? : Option (List ℚ)) : List ℚ :=
  match range? with
  | some (lo, hi) =>
    let step := (hi - lo) / ((n_structures : ℚ) - 1)
    let fs := npArange lo (hi + step) step
    if 1 ∈ fs then fs else sortQ (fs ++ [1])
  | none =>
    match custom? with
    | none => defaultScaleFactors
    | some l => l

/-- `utils.py:185`-`193`: one distorted cell per scale factor `s`; the
lattice is multiplied by `s ** (1/3)` and the atoms are rescaled with the
cell, so the fractional positions are unchanged. -/
noncomputable def scaleOneCell (s : ℚ) (st : PStructure) : PStructure :=
  { st with lattice := fun i j => ((s : ℝ) ^ ((1 : ℝ) / 3)) * st.lattice i j }

/-- `scale_cell` (`utils.py:123`-`194`). -/
noncomputable def scale_cell (st : PStructure) (range? : Option (ℚ × ℚ))
    (n_structures : ℕ) (custom? : Option (List ℚ)) : List PStructure :=
  (scaleFactorsDefined range? n_structures custom?).map (scaleOneCell · st)

/-- `random_vary_angle` (`utils.py:227`-`322`): the `(min_scale, max_scale)`
pair in force for each successive generated structure.  The source divides
`angle_percentage_scale` by 100 *inside* the outer generation loop
(`utils.py:291`), so the variable is threaded from one target structure to
the next and shrinks by a factor 100 per structure; entry `k` of this list
is the pair `(1 - s/100^(k+1), 1 + s/100^(k+1))` used for target structure
`k` (assuming, as the claim does, that every target structure is accepted
within its attempt loop — the inner attempts loop does not re-divide). -/
def varyAngleScales (angle_percentage_scale : ℚ) : ℕ → List (ℚ × ℚ)
  | 0 => []
  | n + 1 =>
    let s := angle_percentage_scale / 100
    (1 - s, 1 + s) :: varyAngleScales s n

/-- `utils.py:298`-`300`: the inclusive integer bounds handed to
`random.randint` for one angle of value `a` under a `(min_scale, max_scale)`
pair: `(int(a * min_scale), int(a * max_scale))`. -/
def angleBounds (a : ℚ) (mm : ℚ × ℚ) : ℤ × ℤ :=
  (pyInt (a * mm.1), pyInt (a * mm.2))

/-- Integer 3×3 supercell transformation matrix. -/
abbrev Mat3 := Fin 3 → Fin 3 → ℤ

/-- `.transpose()` of a transformation matrix. -/
def mat3transpose (M : Mat3) : Mat3 := fun i j => M j i

/-- Diagonal matrix with the given entries. -/
def diagMat (x y z : ℤ) : Mat3 := fun i j =>
  if i = j then (if i.val = 0 then x else if i.val = 1 then y else z) else 0

/-- The shape flags of the three `CubicSupercellTransformation` attempts in
`reduce_supercell_size` (`phonons/utils.py:146`, `155`, `166`): first
orthorhombic shapes with angles forced to 90 degrees, then with the forcing
relaxed, then the constructor defaults (`allow_orthorhombic=False`,
`force_90_degrees=False`). -/
structure TierFlags where
  allow_orthorhombic : Bool
  force_90_degrees : Bool
deriving DecidableEq, Repr

/-- First attempt: `allow_orthorhombic=True, force_90_degrees=True`. -/
def tierA : TierFlags := ⟨true, true⟩

/-- Second attempt: `allow_orthorhombic=True, force_90_degrees=False`. -/
def tierB : TierFlags := ⟨true, false⟩

/-- Third attempt: the `CubicSupercellTransformation` defaults. -/
def tierC : TierFlags := ⟨false, false⟩

/-- Oracle for the external pymatgen `CubicSupercellTransformation`: given a
trial minimum length and the shape flags, either `none` (the search raises
`AttributeError`: no transformation satisfies the bounds) or the
transformation matrix found together with the resulting `num_sites`. -/
abbrev CubicOracle := ℤ → TierFlags → Option (Mat3 × ℕ)

/-- One `try` block of `reduce_supercell_size`: on success the atom count is
checked against `[min_atoms, max_atoms]`, returning the transposed matrix,
and an out-of-window count re-raises `AttributeError` (`none`). -/
def tryTier (min_atoms max_atoms : ℕ) (r : Option (Mat3 × ℕ)) : Option Mat3 :=
  match r with
  | none => none
  | some (M, num_sites) =>
    if min_atoms ≤ num_sites ∧ num_sites ≤ max_atoms then some (mat3transpose M) else none

/-- The chained three-tier attempt at one trial minimum length
(`phonons/utils.py:145`-`174`). -/
def tryTiersAt (oracle : CubicOracle) (min_atoms max_atoms : ℕ) (minimum : ℤ) : Option Mat3 :=
  match tryTier min_atoms max_atoms (oracle minimum tierA) with
  | some M => some M
  | none =>
    match tryTier min_atoms max_atoms (oracle minimum tierB) with
    | some M => some M
    | none => tryTier min_atoms max_atoms (oracle minimum tierC)

/-- Per-lattice-vector fallback scale factor
`np.max((np.floor(max_length / len), 1))` (`phonons/utils.py:177`-`179`). -/
def fallbackFactor (max_length len : ℚ) : ℤ := max ⌊max_length / len⌋ 1

/-- The deterministic diagonal fallback matrix, transposed as returned
(`phonons/utils.py:181`-`183`). -/
def fallbackMatrix (max_length a b c : ℚ) : Mat3 :=
  mat3transpose
    (diagMat (fallbackFactor max_length a) (fallbackFactor max_length b)
      (fallbackFactor max_length c))

/-- Python `range(start, stop, -1)` over integers. -/
def pyRangeDown (start stop : ℤ) : List ℤ :=
  (List.range (start - stop).toNat).map fun i : ℕ => start - (i : ℤ)

/-- The `for minimum in range(min_length, fallback_min_length, -1)` loop of
`reduce_supercell_size` (`phonons/utils.py:144`-`183`).  The fallback block
(`phonons/utils.py:176`-`183`) sits inside the loop body after the
`try`/`except` chains and ends in an unconditional `return`, so every loop
iteration returns; an empty trial range falls off the end of the function
(Python returns `None`). -/
def rssGo (oracle : CubicOracle) (min_atoms max_atoms : ℕ) (max_length a b c : ℚ) :
    List ℤ → Option Mat3
  | [] => none
  | minimum :: _rest =>
    match tryTiersAt oracle min_atoms max_atoms minimum with
    | some M => some M
    | none => some (fallbackMatrix max_length a b c)

/-- `reduce_supercell_size` (`phonons/utils.py:107`-`183`).  `a`, `b`, `c`
are the input structure's lattice parameters (`structure.lattice.abc`); the
structure itself is otherwise only consulted through the oracle. -/
def reduce_supercell_size (oracle : CubicOracle) (a b c : ℚ) (min_length : ℤ)
    (max_length : ℚ) (fallback_min_length : ℤ) (min_atoms max_atoms : ℕ) : Option Mat3 :=
  rssGo oracle min_atoms max_atoms max_length a b c
    (pyRangeDown min_length fallback_min_length)

/-- Concrete one-atom configuration with energy 0 and pressure 0. -/
def cfgA : Config := ⟨0, [1], [("energy", 0), ("pressure", 0)], 0⟩

/-- Concrete one-atom configuration with energy 1 and pressure 0. -/
def cfgB : Config := ⟨1, [1], [("energy", 1), ("pressure", 0)], 0⟩

/-- Concrete configuration carrying an energy but no pressure entry. -/
def cfgC : Config := ⟨2, [1], [("energy", 0)], 0⟩

/-- Concrete configuration labelled only under `REF_energy`. -/
def cfgR : Config := ⟨3, [1], [("REF_energy", 5), ("pressure", 0)], 0⟩

/-- Concrete two-atom configuration with total energy 4 and volume 0. -/
def cfgD : Config := ⟨4, [1, 1], [("energy", 4), ("pressure", 0)], 0⟩

/-- The witness oracle on which every tier fails at every length. -/
def oracleAllFail : CubicOracle := fun _ _ => none

/-- The counterexample oracle: the first tier succeeds at trial length 17
(and only there) with a 2-fold diagonal supercell of 200 sites. -/
def oracleSucceedsAt17 : CubicOracle := fun m t =>
  if m = 17 ∧ t = tierA then some (diagMat 2 2 2, 200) else none


/-- A successful index lookup lets the element be moved to the front:
`c :: l.eraseIdx i` is a permutation of `l` when `l.get? i = some c`. -/
theorem cons_eraseIdx_perm (c : α) :
    ∀ (l : List α) (i : ℕ), l.get? i = some c → (c :: l.eraseIdx i).Perm l
  | a :: l, 0, h => by
    simp only [List.get?_cons_zero, Option.some.injEq] at h
    subst h
    simp [List.eraseIdx]
  | a :: l, i + 1, h => by
    simp only [List.get?_cons_succ] at h
    have ih := cons_eraseIdx_perm c l i h
    have : (a :: l).eraseIdx (i + 1) = a :: l.eraseIdx i := rfl
    rw [this]
    exact (List.Perm.swap a c (l.eraseIdx i)).trans (ih.cons a)

/-- The selection loop removes each drawn configuration before the next
round: a successful run splits the working pool into the selection and the
remainder, and draws at most `k` configurations in `k` rounds. -/
theorem boltzLoop_spec :
    ∀ (k : ℕ) (pool : List Config) (probs : List ℚ) (rvs : RandStream)
      (sel rem : List Config), boltzLoop k pool probs rvs = .ok (sel, rem) →
      (sel ++ rem).Perm pool ∧ sel.length ≤ k := by
  intro k
  induction k with
  | zero =>
    intro pool probs rvs sel rem h
    simp only [boltzLoop, Except.ok.injEq, Prod.mk.injEq] at h
    obtain ⟨h1, h2⟩ := h
    subst h1; subst h2
    exact ⟨List.Perm.refl _, Nat.le_refl 0⟩
  | succ n ih =>
    intro pool probs rvs sel rem h
    match rvs with
    | [] => simp only [boltzLoop, reduceCtorEq] at h
    | rv :: rvs' =>
      simp only [boltzLoop] at h
      split at h
      · exact absurd h (by simp)
      · rename_i c hget
        split at h
        · exact absurd h (by simp)
        · rename_i sel' rem' hrec
          simp only [Except.ok.injEq, Prod.mk.injEq] at h
          obtain ⟨h1, h2⟩ := h
          subst h1; subst h2
          obtain ⟨hperm, hlen⟩ := ih _ _ _ _ _ hrec
          exact ⟨(hperm.cons c).trans (cons_eraseIdx_perm c pool _ hget),
            by simpa using Nat.succ_le_succ hlen⟩

/-- Indexing a duplicate-free pool at a sorted duplicate-free index set, as
the CUR draw does, yields a duplicate-free selection of at most
`select_nums` configurations. -/
theorem cur_select_flat_ok (o : CurOracle) (k : ℕ) (ats out : List Config)
    (hnd : ats.Nodup) (h : cur_select o k (.flat ats) = .ok (some out)) :
    out.Nodup ∧ out.length ≤ k := by
  match ats with
  | [] => simp [cur_select, curFatoms] at h
  | a :: as =>
    simp only [cur_select, curFatoms] at h
    rw [if_pos (by simp)] at h
    split at h
    · rename_i hvalid
      obtain ⟨hlen, hidxnd, hbound⟩ := hvalid
      simp only [Except.ok.injEq, Option.some.injEq] at h
      subst h
      constructor
      · refine List.Nodup.filterMap ?_ ?_
        · intro i j b hb hb'
          simp only [Option.mem_def] at hb hb'
          have hi : i < (a :: as).length := by
            rcases List.getElem?_eq_some_iff.mp hb with ⟨hlt, _⟩
            exact hlt
          exact List.getElem?_inj hi hnd (hb.trans hb'.symm)
        · exact ((List.mergeSort_perm _ _).nodup_iff).mpr hidxnd
      · calc ((sortNat (o.choiceIdxs (a :: as).length k)).filterMap
              fun i => (a :: as)[i]?).length
            ≤ (sortNat (o.choiceIdxs (a :: as).length k)).length :=
              List.length_filterMap_le _ _
          _ = (o.choiceIdxs (a :: as).length k).length := by
              simp only [sortNat]
              exact (List.mergeSort_perm (o.choiceIdxs (a :: as).length k)
                (fun a b => decide (a ≤ b))).length_eq
          _ = k := hlen
    · exact absurd h (by simp)

/-- A successful entry check hands the selection stages exactly the
flattened input pool. -/
theorem curFatoms_eq_configs (inp : CurInput) (f : List Config)
    (h : curFatoms inp = .ok f) : f = inp.configs := by
  match inp with
  | .flat [] => simp [curFatoms] at h
  | .flat (c :: cs) => simp_all [curFatoms, CurInput.configs]
  | .nested [] => simp [curFatoms] at h
  | .nested (p :: ps) => simp_all [curFatoms, CurInput.configs]

/-- C2: every invocation of `boltzhist_CUR` removes each selected
configuration from the working pool before the next draw; on a pool of
pairwise-distinct configurations the output therefore contains no duplicate
configuration, and the number of configurations returned is at most
`min(round(bolt_frac * pool_size), bolt_max_num)` (as the nonnegative count
`boltzSelectNum`, matching `range(select_num)` being empty for a negative
rounded value). -/
theorem boltzhist_CUR_without_replacement
    (expFn : ℚ → ℚ) (rvs : RandStream) (oracle : CurOracle) (inp : CurInput)
    (isol_es : ℕ → ℚ) (bolt_frac : ℚ) (bolt_max_num cur_num : ℕ) (kT : ℚ)
    (energy_label : String) (P : Option (List ℚ)) (out : List Config) (after : CurInput)
    (hnd : inp.configs.Nodup)
    (h : boltzhist_CUR expFn rvs oracle inp isol_es bolt_frac bolt_max_num cur_num kT
        energy_label P = .ok (out, after)) :
    out.Nodup ∧ out.length ≤ boltzSelectNum bolt_frac inp.configs.length bolt_max_num := by
  unfold boltzhist_CUR at h
  split at h
  · exact absurd h (by simp)
  rename_i fatoms hfat
  obtain rfl : fatoms = inp.configs := curFatoms_eq_configs inp fatoms hfat
  split at h
  · exact absurd h (by simp)
  split at h
  · exact absurd h (by simp)
  rename_i enthalpies hent
  simp only [] at h
  split at h
  · exact absurd h (by simp)
  rename_i selected rem hloop
  obtain ⟨hperm, hlen⟩ := boltzLoop_spec _ _ _ _ _ _ hloop
  have hselnd : selected.Nodup := ((hperm.nodup_iff).mpr hnd).of_append_left
  split at h
  · rename_i hcur
    split at h
    · exact absurd h (by simp)
    · rename_i sel_atoms hsel
      simp only [Except.ok.injEq, Prod.mk.injEq] at h
      obtain ⟨rfl, -⟩ := h
      obtain ⟨hond, holen⟩ := cur_select_flat_ok oracle cur_num selected _ hselnd hsel
      exact ⟨hond, holen.trans (Nat.le_of_lt hcur)⟩
    · exact absurd h (by simp)
  · simp only [Except.ok.injEq, Prod.mk.injEq] at h
    obtain ⟨rfl, -⟩ := h
    exact ⟨hselnd, hlen⟩


/-- C1: at a two-atom configuration with `E = 4`, vanishing isolated-atom
energies, zero volume and zero pressure, the enthalpy proxy the code
computes is `((4 - 0)/2 + 0)/2 = 1`, while the claimed formula
`(E - Σ isol)/n + V·P/n` gives `2`: the code divides the energy part by the
atom count twice. -/
theorem computeEnthalpies_double_division :
    computeEnthalpies (fun _ => 0) [cfgD] [0] = .ok [1]
    ∧ enthalpySpec (fun _ => 0) 4 cfgD 0 = 2
    ∧ (1 : ℚ) ≠ 2 := by
  refine ⟨?_, ?_, by norm_num⟩
  · norm_num [computeEnthalpies, mapME, enerRelative, cfgD, lookupQ, List.range_succ]
  · norm_num [enthalpySpec, cfgD]

/-- C8 (counterexample): `cur_select` on a literally empty pool does not
return an empty selection; `isinstance(atoms[0], list)` raises `IndexError`
first. -/
theorem cur_select_empty_raises :
    cur_select ⟨fun _ _ => []⟩ 5 (.flat []) = .error "IndexError" := by
  simp [cur_select, curFatoms]

/-- C8 (amended): on an empty pool `cur_select` fails with an `IndexError`
from the nested-input check; the guarded nothing-return (no decomposition
attempted) fires only when a non-empty nested input flattens to an empty
pool. -/
theorem cur_select_empty_behaviour (o : CurOracle) (k : ℕ) :
    cur_select o k (.flat []) = .error "IndexError"
    ∧ cur_select o k (.nested [[]]) = .ok none := by
  constructor
  · simp [cur_select, curFatoms]
  · simp [cur_select, curFatoms]

/-- C9: with `angle_percentage_scale = 10` and two target structures, the
first structure draws its angles inside the `±10%` window `(0.9, 1.1)` but
the second inside `(0.999, 1.001)` — the percentage scale is divided by 100
again for every successive target structure, so for 90-degree angles the
second structure's `randint` bounds collapse from `(81, 99)` to `(89, 90)`;
the windows for the two structures are not equal. -/
theorem varyAngleScales_shrinks :
    varyAngleScales 10 2 = [(9 / 10, 11 / 10), (999 / 1000, 1001 / 1000)]
    ∧ (varyAngleScales 10 2).map (angleBounds 90) = [(81, 99), (89, 90)]
    ∧ (((9 : ℚ) / 10, (11 : ℚ) / 10) ≠ ((999 : ℚ) / 1000, (1001 : ℚ) / 1000)) := by
  refine ⟨?_, ?_, by norm_num⟩
  · norm_num [varyAngleScales]
  · norm_num [varyAngleScales, angleBounds, pyInt]

/-- C10: neutral scaling is the identity — `scale_cell` with the custom
factor list `[1.0]` returns exactly the input structure (lattice and
fractional positions unchanged), for every input structure. -/
theorem scale_cell_neutral (st : PStructure) (n : ℕ) :
    scale_cell st none n (some [1]) = [st] := by
  simp only [scale_cell, scaleFactorsDefined, List.map_cons, List.map_nil]
  have : scaleOneCell 1 st = st := by
    cases st
    simp only [scaleOneCell]
    congr 1
    funext i j
    norm_num [Real.one_rpow]
  rw [this]

/-- When the trial range is non-empty its head is `min_length`. -/
theorem pyRangeDown_head (a b : ℤ) (h : b < a) :
    ∃ rest, pyRangeDown a b = a :: rest := by
  unfold pyRangeDown
  obtain ⟨k, hk⟩ : ∃ k, (a - b).toNat = k + 1 := ⟨(a - b).toNat - 1, by omega⟩
  rw [hk, List.range_succ_eq_map, List.map_cons]
  refine ⟨(List.map Nat.succ (List.range k)).map (fun i : ℕ => a - (i : ℤ)), ?_⟩
  rw [Nat.cast_zero, sub_zero]

/-- When the trial range is empty (`min_length ≤ fallback_min_length`) the
function falls off the loop. -/
theorem pyRangeDown_nil (a b : ℤ) (h : a ≤ b) : pyRangeDown a b = [] := by
  unfold pyRangeDown
  have : (a - b).toNat = 0 := by omega
  rw [this]
  rfl

/-- C4 (amended): when `fallback_min_length < min_length`, the outcome of
`reduce_supercell_size` is decided entirely at the first trial length
`min_length`: the three tiers are attempted there, and if all three fail
the diagonal fallback is returned immediately — smaller trial lengths are
never attempted because the fallback block ends the first loop iteration
with an unconditional `return`. -/
theorem reduce_supercell_first_length_only (oracle : CubicOracle) (a b c : ℚ)
    (min_length : ℤ) (max_length : ℚ) (fallback_min_length : ℤ) (min_atoms max_atoms : ℕ)
    (h : fallback_min_length < min_length) :
    reduce_supercell_size oracle a b c min_length max_length fallback_min_length
        min_atoms max_atoms =
      (match tryTiersAt oracle min_atoms max_atoms min_length with
       | some M => some M
       | none => some (fallbackMatrix max_length a b c)) := by
  unfold reduce_supercell_size
  obtain ⟨rest, hr⟩ := pyRangeDown_head _ _ h
  rw [hr]
  rfl


/-- C4 (counterexample): with `min_length = 18`, `fallback_min_length = 12`
and an oracle whose first tier succeeds (within the atom window) at trial
length 17 — a length inside the countdown range — the code still returns
the diagonal fallback: it does not fall back "only after all three tiers
have failed for every trial length". -/
theorem reduce_supercell_skips_lower_lengths :
    reduce_supercell_size oracleSucceedsAt17 4 4 4 18 22 12 100 500
      = some (fallbackMatrix 22 4 4 4)
    ∧ (17 : ℤ) ∈ pyRangeDown 18 12
    ∧ tryTiersAt oracleSucceedsAt17 100 500 17 = some (mat3transpose (diagMat 2 2 2))
    ∧ fallbackMatrix 22 4 4 4 ≠ mat3transpose (diagMat 2 2 2) := by
  refine ⟨?_, ?_, ?_, ?_⟩
  · rw [reduce_supercell_first_length_only _ _ _ _ _ _ _ _ _ (by norm_num)]
    norm_num [tryTiersAt, tryTier, oracleSucceedsAt17, tierA, tierB, tierC]
  · decide
  · norm_num [tryTiersAt, tryTier, oracleSucceedsAt17, tierA, tierB, tierC]
  · intro hcontra
    have h00 := congrFun (congrFun hcontra 0) 0
    rw [show fallbackMatrix 22 4 4 4 0 0 = 5 by
      norm_num [fallbackMatrix, mat3transpose, diagMat, fallbackFactor]] at h00
    rw [show mat3transpose (diagMat 2 2 2) 0 0 = 2 by
      norm_num [mat3transpose, diagMat]] at h00
    exact absurd h00 (by norm_num)

/-- C5 (counterexample): with `min_length = fallback_min_length = 12` the
trial range `range(12, 12, -1)` is empty, the loop body never runs, and
`reduce_supercell_size` returns `None` — no transformation matrix at all. -/
theorem reduce_supercell_returns_none :
    reduce_supercell_size oracleAllFail 4 4 4 12 22 12 100 500 = none := by
  unfold reduce_supercell_size
  rw [pyRangeDown_nil _ _ (by norm_num)]
  rfl

/-- C5 (amended): when `min_length > fallback_min_length` the search always
returns a matrix — the diagonal fallback with per-vector factor
`max(floor(max_length / vector_length), 1)` whenever the three tiers fail —
but when `min_length ≤ fallback_min_length` the trial range is empty and
the function returns `None` instead of a matrix. -/
theorem reduce_supercell_totality (oracle : CubicOracle) (a b c : ℚ)
    (min_length : ℤ) (max_length : ℚ) (fallback_min_length : ℤ) (min_atoms max_atoms : ℕ) :
    (fallback_min_length < min_length →
      (reduce_supercell_size oracle a b c min_length max_length fallback_min_length
          min_atoms max_atoms).isSome = true
      ∧ (tryTiersAt oracle min_atoms max_atoms min_length = none →
          reduce_supercell_size oracle a b c min_length max_length fallback_min_length
            min_atoms max_atoms = some (fallbackMatrix max_length a b c)))
    ∧ (min_length ≤ fallback_min_length →
        reduce_supercell_size oracle a b c min_length max_length fallback_min_length
          min_atoms max_atoms = none) := by
  constructor
  · intro h
    rw [reduce_supercell_first_length_only _ _ _ _ _ _ _ _ _ h]
    constructor
    · cases htt : tryTiersAt oracle min_atoms max_atoms min_length <;> simp [htt]
    · intro hfail
      rw [hfail]
  · intro h
    unfold reduce_supercell_size
    rw [pyRangeDown_nil _ _ h]
    rfl

/-- Any configuration without a pressure entry aborts the pressure
comprehension with the fixed `RuntimeError` message, whatever else the pool
contains. -/
theorem getPressures_missing (l : List Config) (c : Config) (hc : c ∈ l)
    (hp : lookupQ "pressure" c.info = none) :
    getPressures none l = .error "No pressures, so cannot Boltzmann weight" := by
  induction l with
  | nil => cases hc
  | cons a as ih =>
    cases hla : lookupQ "pressure" a.info with
    | none => simp [getPressures, mapME, hla]
    | some p =>
      rcases List.mem_cons.mp hc with rfl | hmem
      · rw [hla] at hp; cases hp
      · have hrec := ih hmem
        simp only [getPressures] at hrec
        simp [getPressures, mapME, hla, hrec]

/-- C7: calling `boltzhist_CUR` with `P = None` when some configuration in
the pool carries no `pressure` entry is a fatal `RuntimeError` naming the
missing pressures; pressure is never silently defaulted. -/
theorem boltzhist_CUR_pressure_fatal (expFn : ℚ → ℚ) (rvs : RandStream) (oracle : CurOracle)
    (inp : CurInput) (isol_es : ℕ → ℚ) (bolt_frac : ℚ) (bolt_max_num cur_num : ℕ) (kT : ℚ)
    (energy_label : String) (c : Config) (hc : c ∈ inp.configs)
    (hp : lookupQ "pressure" c.info = none) :
    boltzhist_CUR expFn rvs oracle inp isol_es bolt_frac bolt_max_num cur_num kT
      energy_label none = .error "No pressures, so cannot Boltzmann weight" := by
  match inp with
  | .flat [] => simp [CurInput.configs] at hc
  | .nested [] => simp [CurInput.configs] at hc
  | .flat (a :: as) =>
    have hmiss := getPressures_missing (a :: as) c hc hp
    simp only [boltzhist_CUR, curFatoms, hmiss]
  | .nested (p :: ps) =>
    have hmiss := getPressures_missing ((p :: ps).flatten) c hc hp
    simp only [boltzhist_CUR, curFatoms, hmiss]

/-- Any configuration without an `energy` entry aborts the relative-energy
comprehension with a `KeyError` (with every configuration non-empty, so no
earlier `ZeroDivisionError` can fire instead). -/
theorem mapME_enerRelative_missing (isol_es : ℕ → ℚ) (l : List Config) (c : Config)
    (hall : ∀ c' ∈ l, c'.species ≠ []) (hc : c ∈ l)
    (he : lookupQ "energy" c.info = none) :
    mapME (enerRelative isol_es) l = .error "KeyError: energy" := by
  induction l with
  | nil => cases hc
  | cons a as ih =>
    cases hla : lookupQ "energy" a.info with
    | none => simp [mapME, enerRelative, hla]
    | some e =>
      rcases List.mem_cons.mp hc with rfl | hmem
      · rw [hla] at he; cases he
      · have hrec := ih (fun c' h' => hall c' (List.mem_cons_of_mem a h')) hmem
        have hne : a.species ≠ [] := hall a (List.mem_cons_self a as)
        simp [mapME, enerRelative, hla, hrec, List.length_eq_zero, hne]

/-- C3 (amended): `boltzhist_CUR` reads each configuration's energy under
the fixed key `energy`, ignoring its `energy_label` parameter entirely (the
result is identical under any two labels); a configuration missing the
`energy` key is a hard `KeyError`, never a silent default of zero. -/
theorem boltzhist_CUR_energy_label_ignored (expFn : ℚ → ℚ) (rvs : RandStream)
    (oracle : CurOracle) (inp : CurInput) (isol_es : ℕ → ℚ) (bolt_frac : ℚ)
    (bolt_max_num cur_num : ℕ) (kT : ℚ) (label label' : String) (P : Option (List ℚ))
    (ps : List ℚ) (c : Config) :
    boltzhist_CUR expFn rvs oracle inp isol_es bolt_frac bolt_max_num cur_num kT label P
      = boltzhist_CUR expFn rvs oracle inp isol_es bolt_frac bolt_max_num cur_num kT label' P
    ∧ ((∀ c' ∈ inp.configs, c'.species ≠ []) → c ∈ inp.configs →
        lookupQ "energy" c.info = none →
        boltzhist_CUR expFn rvs oracle inp isol_es bolt_frac bolt_max_num cur_num kT label
          (some ps) = .error "KeyError: energy") := by
  constructor
  · rfl
  · intro hall hc he
    match inp with
    | .flat [] => simp [CurInput.configs] at hc
    | .nested [] => simp [CurInput.configs] at hc
    | .flat (a :: as) =>
      have hmiss := mapME_enerRelative_missing isol_es (a :: as) c hall hc he
      simp only [boltzhist_CUR, curFatoms, getPressures, computeEnthalpies, hmiss]
    | .nested (p :: pss) =>
      have hmiss := mapME_enerRelative_missing isol_es ((p :: pss).flatten) c hall hc he
      simp only [boltzhist_CUR, curFatoms, getPressures, computeEnthalpies, hmiss]

/-- C3 (counterexample): a configuration labelled under `REF_energy` (and
carrying a pressure), passed with `energy_label='REF_energy'`: the claim
says the energy is read under that label, but the call hard-errors looking
up the fixed key `energy` instead of reading the value 5 stored under
`REF_energy`. -/
theorem boltzhist_CUR_ref_label_counterexample :
    boltzhist_CUR (fun _ => 1) [0] ⟨fun _ _ => []⟩ (.flat [cfgR]) (fun _ => 0) 1 3000 100 0
      "REF_energy" (some [0]) = .error "KeyError: energy" := by
  simp [boltzhist_CUR, curFatoms, getPressures, computeEnthalpies, mapME, enerRelative,
    cfgR, lookupQ]

/-- C6: on a flat two-configuration input pool, `boltzhist_CUR` selects one
configuration and, because `fatoms` aliases the caller's list rather than
copying it, deletes it from the caller's list in place: after the call the
caller's `atoms` holds `[cfgB]`, not the original `[cfgA, cfgB]`. -/
theorem boltzhist_CUR_mutates_caller_pool :
    boltzhist_CUR (fun _ => 1) [0] ⟨fun _ _ => []⟩ (.flat [cfgA, cfgB]) (fun _ => 0)
        (1 / 2) 3000 100 0 "energy" (some [0, 0]) = .ok ([cfgA], .flat [cfgB])
    ∧ CurInput.flat [cfgB] ≠ CurInput.flat [cfgA, cfgB] := by
  constructor
  · norm_num [boltzhist_CUR, curFatoms, getPressures, computeEnthalpies, mapME, enerRelative,
      cfgA, cfgB, lookupQ, qmin, qmax, histRange, configProb, histCount, histBinIndex,
      histEdge, boltzSelectNum, pyRound, boltzLoop, cumsum, cumsumFrom, GPaConst,
      callerAfter, List.range_succ, List.countP_cons, List.countP_nil]
  · simp

/-- Witness for the sampling-without-replacement theorem at the same
concrete two-configuration pool. -/
theorem boltzhist_CUR_without_replacement_witness :
    [cfgA].Nodup
    ∧ [cfgA].length ≤ boltzSelectNum (1 / 2) (CurInput.flat [cfgA, cfgB]).configs.length 3000 :=
  boltzhist_CUR_without_replacement (fun _ => 1) [0] ⟨fun _ _ => []⟩ (.flat [cfgA, cfgB])
    (fun _ => 0) (1 / 2) 3000 100 0 "energy" (some [0, 0]) [cfgA] (.flat [cfgB])
    (by simp [CurInput.configs, cfgA, cfgB])
    (by norm_num [boltzhist_CUR, curFatoms, getPressures, computeEnthalpies, mapME,
      enerRelative, cfgA, cfgB, lookupQ, qmin, qmax, histRange, configProb, histCount,
      histBinIndex, histEdge, boltzSelectNum, pyRound, boltzLoop, cumsum, cumsumFrom,
      GPaConst, callerAfter, List.range_succ, List.countP_cons, List.countP_nil])

/-- Witness for the fatal-missing-pressure theorem at a concrete
one-configuration pool without pressure metadata. -/
theorem boltzhist_CUR_pressure_fatal_witness :
    boltzhist_CUR (fun _ => 1) [] ⟨fun _ _ => []⟩ (.flat [cfgC]) (fun _ => 0) 1 1 1 0
      "energy" none = .error "No pressures, so cannot Boltzmann weight" :=
  boltzhist_CUR_pressure_fatal (fun _ => 1) [] ⟨fun _ _ => []⟩ (.flat [cfgC]) (fun _ => 0)
    1 1 1 0 "energy" cfgC (by simp [CurInput.configs])
    (by simp [cfgC, lookupQ])

/-- Witness for the ignored-energy-label theorem at the concrete
`REF_energy`-labelled configuration. -/
theorem boltzhist_CUR_energy_label_ignored_witness :
    (boltzhist_CUR (fun _ => 1) [] ⟨fun _ _ => []⟩ (.flat [cfgR]) (fun _ => 0) 1 1 1 0
        "REF_energy" (some [0])
      = boltzhist_CUR (fun _ => 1) [] ⟨fun _ _ => []⟩ (.flat [cfgR]) (fun _ => 0) 1 1 1 0
        "energy" (some [0]))
    ∧ boltzhist_CUR (fun _ => 1) [] ⟨fun _ _ => []⟩ (.flat [cfgR]) (fun _ => 0) 1 1 1 0
        "REF_energy" (some [0]) = .error "KeyError: energy" :=
  ⟨(boltzhist_CUR_energy_label_ignored (fun _ => 1) [] ⟨fun _ _ => []⟩ (.flat [cfgR])
      (fun _ => 0) 1 1 1 0 "REF_energy" "energy" (some [0]) [0] cfgR).1,
   (boltzhist_CUR_energy_label_ignored (fun _ => 1) [] ⟨fun _ _ => []⟩ (.flat [cfgR])
      (fun _ => 0) 1 1 1 0 "REF_energy" "energy" (some [0]) [0] cfgR).2
     (by simp [CurInput.configs, cfgR]) (by simp [CurInput.configs])
     (by simp [cfgR, lookupQ])⟩

/-- Witness for the first-trial-length theorem of the supercell search. -/
theorem reduce_supercell_first_length_only_witness :
    reduce_supercell_size oracleAllFail 4 4 4 18 22 12 100 500 =
      (match tryTiersAt oracleAllFail 100 500 18 with
       | some M => some M
       | none => some (fallbackMatrix 22 4 4 4)) :=
  reduce_supercell_first_length_only oracleAllFail 4 4 4 18 22 12 100 500 (by norm_num)

/-- Witness for the totality theorem of the supercell search: a matrix is
produced above the fallback length (and it is the diagonal fallback when
every tier fails), while `None` comes back at `min_length = 10 ≤ 12`. -/
theorem reduce_supercell_totality_witness :
    (reduce_supercell_size oracleAllFail 4 4 4 18 22 12 100 500).isSome = true
    ∧ reduce_supercell_size oracleAllFail 4 4 4 18 22 12 100 500
        = some (fallbackMatrix 22 4 4 4)
    ∧ reduce_supercell_size oracleAllFail 4 4 4 10 22 12 100 500 = none :=
  ⟨((reduce_supercell_totality oracleAllFail 4 4 4 18 22 12 100 500).1 (by norm_num)).1,
   ((reduce_supercell_totality oracleAllFail 4 4 4 18 22 12 100 500).1 (by norm_num)).2
     (by simp [tryTiersAt, tryTier, oracleAllFail]),
   (reduce_supercell_totality oracleAllFail 4 4 4 10 22 12 100 500).2 (by norm_num)⟩
